import Mathlib

/-!
Verification of the asteroids game core (Go sources) against its
natural-language specification.  Each Go function relevant to the claims is
shallowly embedded as an executable Lean definition; theorems settle the
claims.  Go `int` is modelled as `Int` (Go integer division truncates toward
zero, which is `Int.div`); `float64` coordinates are modelled as `Rat`, with
`math.Sqrt` results passed explicitly where needed since square roots leave
the rationals.
-/

namespace Asteroids

/-! ## Timer (timer.go / part_001)

```go
type Timer struct { currentTicks int; targetTicks int }
func NewTimer(d time.Duration) *Timer {
    return &Timer{currentTicks: 0, targetTicks: int(d.Milliseconds()) * ebiten.TPS() / 1000}
}
func (t *Timer) Update() { if t.currentTicks < t.targetTicks { t.currentTicks++ } }
func (t *Timer) IsReady() bool { return t.currentTicks >= t.targetTicks }
func (t *Timer) Reset() { t.currentTicks = 0 }
```
`NewTimer` is parametrised here by `ms = d.Milliseconds()` and `tps = ebiten.TPS()`.
-/

structure Timer where
  currentTicks : Int
  targetTicks : Int
deriving Repr, DecidableEq

def NewTimer (ms tps : Int) : Timer :=
  { currentTicks := 0, targetTicks := Int.tdiv (ms * tps) 1000 }

def Timer.Update (t : Timer) : Timer :=
  if t.currentTicks < t.targetTicks then { t with currentTicks := t.currentTicks + 1 } else t

def Timer.IsReady (t : Timer) : Bool :=
  t.targetTicks ≤ t.currentTicks

def Timer.Reset (t : Timer) : Timer :=
  { t with currentTicks := 0 }

lemma Timer.update_currentTicks_le (t : Timer) (h : t.currentTicks ≤ t.targetTicks) :
    t.Update.currentTicks ≤ t.targetTicks := by
  unfold Timer.Update
  split
  · show t.currentTicks + 1 ≤ t.targetTicks
    omega
  · exact h

lemma Timer.update_targetTicks (t : Timer) : t.Update.targetTicks = t.targetTicks := by
  unfold Timer.Update
  split <;> rfl

lemma Timer.iterate_update_of_le (n : ℕ) (t : Timer)
    (h : t.currentTicks + n ≤ t.targetTicks) :
    (Nat.iterate Timer.Update n t) = { t with currentTicks := t.currentTicks + n } := by
  induction n generalizing t with
  | zero => simp [Nat.iterate]
  | succ k ih =>
      have hlt : t.currentTicks < t.targetTicks := by omega
      have hstep : t.Update = { t with currentTicks := t.currentTicks + 1 } := by
        unfold Timer.Update; simp [hlt]
      rw [Function.iterate_succ_apply, hstep]
      rw [ih { t with currentTicks := t.currentTicks + 1 } (by simpa using by omega)]
      simp
      omega

lemma Int.tdiv_eq_fdiv_of_nonneg (a : Int) (h : 0 ≤ a) :
    Int.tdiv a 1000 = Int.fdiv a 1000 := by
  obtain ⟨n, rfl⟩ := Int.eq_ofNat_of_zero_le h
  cases n <;> rfl

/-- C2 counterexample: the claim says `NewTimer` sets
`target_ticks = floor(d_ms * tps / 1000)` for *every* duration.  Go's integer
division truncates toward zero, so for the negative duration `d = -1ms` at
`tps = 60` the code computes `(-60)/1000 = 0`, while the floor is `-1`. -/
theorem NewTimer_neg_duration_is_not_floor :
    (NewTimer (-1) 60).targetTicks ≠ Int.fdiv ((-1) * 60) 1000 := by
  decide

/-- C2 (amended): `NewTimer` sets `target_ticks` to the Go (truncated toward
zero) quotient `(d_ms * tps) / 1000`, which equals the floor whenever the
duration and tick rate are nonnegative; `Update` increments `elapsed` by one
exactly while `elapsed < target` (so `elapsed` never exceeds `target` and
updating a ready timer changes nothing); `IsReady` is true iff
`elapsed ≥ target` (immediately true when `target_ticks = 0`) with no side
effects; `Reset` sets `elapsed` to 0; and a timer with `target_ticks = 5`
becomes ready after exactly 5 updates and, after `Reset`, is not ready and
requires 5 more. -/
theorem timer_contract :
    (∀ ms tps : Int, (NewTimer ms tps).currentTicks = 0 ∧
        (NewTimer ms tps).targetTicks = Int.tdiv (ms * tps) 1000) ∧
    (∀ ms tps : Int, 0 ≤ ms → 0 ≤ tps →
        (NewTimer ms tps).targetTicks = Int.fdiv (ms * tps) 1000) ∧
    (∀ t : Timer, t.currentTicks < t.targetTicks →
        t.Update = { t with currentTicks := t.currentTicks + 1 }) ∧
    (∀ t : Timer, ¬ t.currentTicks < t.targetTicks → t.Update = t) ∧
    (∀ t : Timer, t.currentTicks ≤ t.targetTicks →
        t.Update.currentTicks ≤ t.targetTicks) ∧
    (∀ t : Timer, t.IsReady = true ↔ t.targetTicks ≤ t.currentTicks) ∧
    (∀ ms tps : Int, (NewTimer ms tps).targetTicks = 0 →
        (NewTimer ms tps).IsReady = true) ∧
    (∀ t : Timer, t.Reset = { t with currentTicks := 0 }) ∧
    ((Nat.iterate Timer.Update 5 (Timer.mk 0 5)).IsReady = true ∧
      (Nat.iterate Timer.Update 4 (Timer.mk 0 5)).IsReady = false ∧
      ((Nat.iterate Timer.Update 5 (Timer.mk 0 5)).Reset).IsReady = false ∧
      (Nat.iterate Timer.Update 4 ((Nat.iterate Timer.Update 5 (Timer.mk 0 5)).Reset)).IsReady
        = false ∧
      (Nat.iterate Timer.Update 5 ((Nat.iterate Timer.Update 5 (Timer.mk 0 5)).Reset)).IsReady
        = true) := by
  refine ⟨fun ms tps => ⟨rfl, rfl⟩, ?_, ?_, ?_, Timer.update_currentTicks_le, ?_, ?_, ?_, ?_⟩
  · intro ms tps hms htps
    exact Int.tdiv_eq_fdiv_of_nonneg _ (mul_nonneg hms htps)
  · intro t h
    unfold Timer.Update
    simp [h]
  · intro t h
    unfold Timer.Update
    simp [h]
  · intro t
    unfold Timer.IsReady
    simp
  · intro ms tps h
    unfold Timer.IsReady
    have h0 : (NewTimer ms tps).currentTicks = 0 := rfl
    rw [h, h0]
    decide
  · intro t
    rfl
  · refine ⟨by decide, by decide, by decide, by decide, by decide⟩

/-- Witness for `timer_contract` at concrete inputs: a 1-second timer at
60 ticks/second gets the floor target 60, and an unready timer (3 of 5 ticks)
steps to 4 of 5. -/
theorem timer_contract_witness :
    (NewTimer 1000 60).targetTicks = Int.fdiv (1000 * 60) 1000 ∧
    (Timer.mk 3 5).Update = Timer.mk 4 5 :=
  ⟨timer_contract.2.1 1000 60 (by decide) (by decide),
   timer_contract.2.2.1 (Timer.mk 3 5) (by decide)⟩

/-! ## SceneManager (scene_manager.go)

```go
const transitionMaxCount = 25
type SceneManager struct { current Scene; next Scene; transitionCount int }

func (s *SceneManager) Update(_ *Input) error {
    if s.transitionCount == 0 { return s.current.Update(&State{SceneManager: s}) }
    s.transitionCount--
    if s.transitionCount > 0 { return nil }
    s.current = s.next
    s.next = nil
    return nil
}

func (s *SceneManager) GoToScene(scene Scene) {
    if s.current == nil { s.current = scene } else {
        s.next = scene
        s.transitionCount = transitionMaxCount
    }
}
```

Scene interface values are modelled by an arbitrary type `S`; nil interface
fields by `Option S`.  When `transitionCount == 0` the Go `Update` delegates
to `current.Update`, during which the scene may call `GoToScene`; that
possible re-entrant call is modelled by the `req : Option S` argument.  The
returned `Bool` records whether the current scene's `Update` was invoked.
-/

def transitionMaxCount : Int := 25

structure SceneManager (S : Type) where
  current : Option S
  next : Option S
  transitionCount : Int
deriving Repr, DecidableEq

def SceneManager.GoToScene {S : Type} (s : SceneManager S) (scene : S) : SceneManager S :=
  match s.current with
  | none => { s with current := some scene }
  | some _ => { s with next := some scene, transitionCount := transitionMaxCount }

def SceneManager.applyRequest {S : Type} (s : SceneManager S) (req : Option S) :
    SceneManager S :=
  match req with
  | none => s
  | some sc => s.GoToScene sc

def SceneManager.Update (s : SceneManager S) (req : Option S) : SceneManager S × Bool :=
  if s.transitionCount = 0 then
    (s.applyRequest req, true)
  else
    let c := s.transitionCount - 1
    if 0 < c then ({ s with transitionCount := c }, false)
    else ({ s with current := s.next, next := none, transitionCount := c }, false)

/-- The Go zero value `&SceneManager{}` built in `Game.Update`. -/
def SceneManager.initial (S : Type) : SceneManager S :=
  { current := none, next := none, transitionCount := 0 }

/-- States a `SceneManager` can reach: the zero value, closed under direct
`GoToScene` calls (as `Game.Update` performs on first tick) and `Update`
calls with any scene request. -/
inductive SceneManager.Reachable {S : Type} : SceneManager S → Prop
  | init : Reachable (SceneManager.initial S)
  | goto (s : SceneManager S) (scene : S) : Reachable s → Reachable (s.GoToScene scene)
  | update (s : SceneManager S) (req : Option S) : Reachable s → Reachable (s.Update req).1

def SceneManager.Inv {S : Type} (s : SceneManager S) : Prop :=
  (s.next ≠ none ↔ 0 < s.transitionCount) ∧
  (0 < s.transitionCount → s.current ≠ none) ∧
  0 ≤ s.transitionCount

lemma SceneManager.inv_goto {S : Type} (s : SceneManager S) (scene : S) (h : s.Inv) :
    (s.GoToScene scene).Inv := by
  obtain ⟨h1, h2, h3⟩ := h
  unfold SceneManager.GoToScene
  match hc : s.current with
  | none => exact ⟨h1, fun hp => by simp, h3⟩
  | some c =>
      refine ⟨by simp [transitionMaxCount], fun _ => by simp [hc], by simp [transitionMaxCount]⟩

lemma SceneManager.inv_update {S : Type} (s : SceneManager S) (req : Option S) (h : s.Inv) :
    (s.Update req).1.Inv := by
  obtain ⟨h1, h2, h3⟩ := h
  unfold SceneManager.Update
  by_cases h0 : s.transitionCount = 0
  · simp only [h0, if_pos rfl]
    match req with
    | none => exact ⟨h1, h2, h3⟩
    | some sc => exact SceneManager.inv_goto s sc ⟨h1, h2, h3⟩
  · have hpos : 0 < s.transitionCount := by omega
    simp only [if_neg h0]
    by_cases hc : 0 < s.transitionCount - 1
    · simp only [if_pos hc]
      refine ⟨?_, ?_, ?_⟩
      · show s.next ≠ none ↔ 0 < s.transitionCount - 1
        exact ⟨fun _ => hc, fun _ => h1.mpr hpos⟩
      · show 0 < s.transitionCount - 1 → s.current ≠ none
        exact fun _ => h2 hpos
      · show (0 : Int) ≤ s.transitionCount - 1
        omega
    · simp only [if_neg hc]
      refine ⟨?_, ?_, ?_⟩
      · show (none : Option S) ≠ none ↔ 0 < s.transitionCount - 1
        exact ⟨fun hcon => absurd rfl hcon, fun hlt => absurd hlt hc⟩
      · show 0 < s.transitionCount - 1 → s.next ≠ none
        exact fun hlt => absurd hlt hc
      · show (0 : Int) ≤ s.transitionCount - 1
        omega

lemma SceneManager.reachable_inv {S : Type} (s : SceneManager S) (h : s.Reachable) :
    s.Inv := by
  induction h with
  | init => exact ⟨by simp [SceneManager.initial], by simp [SceneManager.initial],
      by simp [SceneManager.initial]⟩
  | goto s scene _ ih => exact SceneManager.inv_goto s scene ih
  | update s req _ ih => exact SceneManager.inv_update s req ih

lemma SceneManager.update_countdown {S : Type} (s : SceneManager S) (req : Option S)
    (h : 1 < s.transitionCount) :
    s.Update req = ({ s with transitionCount := s.transitionCount - 1 }, false) := by
  unfold SceneManager.Update
  rw [if_neg (by omega), if_pos (by omega)]

lemma SceneManager.update_commit {S : Type} (s : SceneManager S) (req : Option S)
    (h : s.transitionCount = 1) :
    s.Update req = ({ s with current := s.next, next := none, transitionCount := 0 }, false) := by
  unfold SceneManager.Update
  rw [if_neg (by omega), if_neg (by omega)]
  simp [h]

/-- Iterating the manager `Update` through a whole transition of length `n`. -/
lemma SceneManager.iterate_update_transition {S : Type} (n : ℕ) (s : SceneManager S)
    (h : s.transitionCount = (n : Int)) (hn : 0 < n) :
    Nat.iterate (fun st => (SceneManager.Update st none).1) n s
      = { current := s.next, next := none, transitionCount := 0 } := by
  induction n generalizing s with
  | zero => omega
  | succ k ih =>
      rw [Function.iterate_succ_apply]
      by_cases hk : k = 0
      · subst hk
        rw [SceneManager.update_commit s none (by omega)]
        simp [Nat.iterate]
      · rw [SceneManager.update_countdown s none (by omega)]
        exact ih _ (by simp; omega) (by omega)

/-- Iterating the manager `Update` part-way through a transition only lowers
the countdown. -/
lemma SceneManager.iterate_update_partial {S : Type} (k : ℕ) (s : SceneManager S)
    (h : (k : Int) < s.transitionCount) :
    Nat.iterate (fun st => (SceneManager.Update st none).1) k s
      = { s with transitionCount := s.transitionCount - k } := by
  induction k generalizing s with
  | zero => simp
  | succ k ih =>
      rw [Function.iterate_succ_apply]
      rw [SceneManager.update_countdown s none (by push_cast at h; omega)]
      rw [ih _ (by show (k : Int) < s.transitionCount - 1; push_cast at h; omega)]
      show ({ s with transitionCount := s.transitionCount - 1 - (k : Int) } : SceneManager S)
        = { s with transitionCount := s.transitionCount - ((k : ℕ) + 1 : ℕ) }
      congr 1
      push_cast
      omega

/-- C3: in every reachable `SceneManager` state the pending scene `next` is
non-nil iff the transition countdown is positive; `GoToScene` on a manager
with no current scene installs the scene immediately with zero transition
ticks; `GoToScene` on a manager with a current scene sets `next` to that
scene and arms the countdown to exactly 25 ticks, after which exactly 25
`Update` calls make `current` the new scene and clear `next` (after only 24,
the old scene is still current). -/
theorem sceneManager_transition_contract {S : Type} :
    (∀ s : SceneManager S, s.Reachable → (s.next ≠ none ↔ 0 < s.transitionCount)) ∧
    (∀ (s : SceneManager S) (scene : S), s.Reachable → s.current = none →
        s.GoToScene scene
          = { current := some scene, next := none, transitionCount := 0 }) ∧
    (∀ (s : SceneManager S) (scene : S), s.current ≠ none →
        s.GoToScene scene = { s with next := some scene, transitionCount := 25 }) ∧
    (∀ (s : SceneManager S) (scene : S), s.current ≠ none →
        Nat.iterate (fun st => (SceneManager.Update st none).1) 25 (s.GoToScene scene)
          = { current := some scene, next := none, transitionCount := 0 } ∧
        (Nat.iterate (fun st => (SceneManager.Update st none).1) 24
            (s.GoToScene scene)).current = s.current) := by
  have hgoto : ∀ (s : SceneManager S) (scene : S), s.current ≠ none →
      s.GoToScene scene = { s with next := some scene, transitionCount := 25 } := by
    intro s scene hc
    unfold SceneManager.GoToScene
    match hcur : s.current with
    | none => exact absurd hcur hc
    | some c => rfl
  refine ⟨?_, ?_, hgoto, ?_⟩
  · intro s hs
    exact (SceneManager.reachable_inv s hs).1
  · intro s scene hs hc
    obtain ⟨h1, h2, h3⟩ := SceneManager.reachable_inv s hs
    have hcount : s.transitionCount = 0 := by
      by_contra hne
      exact (h2 (by omega)) hc
    have hnext : s.next = none := by
      by_contra hne
      have := h1.mp hne
      omega
    obtain ⟨cur, nxt, cnt⟩ := s
    simp only at hc hcount hnext
    subst hc hcount hnext
    rfl
  · intro s scene hc
    rw [hgoto s scene hc]
    constructor
    · rw [SceneManager.iterate_update_transition 25 _ rfl (by omega)]
    · rw [SceneManager.iterate_update_partial 24 _
        (by show (24 : Int) < (25 : Int); norm_num)]

/-- Witness for `sceneManager_transition_contract` at concrete inputs
(`S := ℕ`): installing a first scene on the empty manager is immediate with
zero countdown; re-targeting a populated manager arms a 25-tick transition
that 25 updates complete. -/
theorem sceneManager_transition_contract_witness :
    ((SceneManager.initial ℕ).GoToScene 5
        = { current := some 5, next := none, transitionCount := 0 }) ∧
    ((SceneManager.mk (some 1) none 0 : SceneManager ℕ).GoToScene 2
        = { current := some 1, next := some 2, transitionCount := 25 }) ∧
    (Nat.iterate (fun st => (SceneManager.Update st none).1) 25
        ((SceneManager.mk (some 1) none 0 : SceneManager ℕ).GoToScene 2)
        = { current := some 2, next := none, transitionCount := 0 }) :=
  ⟨(sceneManager_transition_contract (S := ℕ)).2.1 (SceneManager.initial ℕ) 5
      SceneManager.Reachable.init rfl,
   (sceneManager_transition_contract (S := ℕ)).2.2.1 (SceneManager.mk (some 1) none 0) 2
      (by decide),
   ((sceneManager_transition_contract (S := ℕ)).2.2.2 (SceneManager.mk (some 1) none 0) 2
      (by decide)).1⟩

/-- C10: while a transition is in progress (`transitionCount > 0`),
`SceneManager.Update` never invokes the Update of either scene and only
decrements the countdown (committing the swap when it reaches zero), no
matter what scene request is pending; and `GoToScene` during an active
transition replaces the pending scene and restarts the countdown at the full
25 ticks. -/
theorem sceneManager_update_paused_during_transition {S : Type} :
    (∀ (s : SceneManager S) (req : Option S), 0 < s.transitionCount →
        (s.Update req).2 = false) ∧
    (∀ (s : SceneManager S) (req : Option S), 1 < s.transitionCount →
        s.Update req = ({ s with transitionCount := s.transitionCount - 1 }, false)) ∧
    (∀ (s : SceneManager S) (req : Option S), s.transitionCount = 1 →
        s.Update req
          = ({ s with current := s.next, next := none, transitionCount := 0 }, false)) ∧
    (∀ (s : SceneManager S) (scene : S), s.Reachable → 0 < s.transitionCount →
        s.GoToScene scene = { s with next := some scene, transitionCount := 25 }) := by
  refine ⟨?_, SceneManager.update_countdown, SceneManager.update_commit, ?_⟩
  · intro s req h
    unfold SceneManager.Update
    rw [if_neg (by omega)]
    by_cases hc : 0 < s.transitionCount - 1
    · rw [if_pos hc]
    · rw [if_neg hc]
  · intro s scene hs h
    have hcur : s.current ≠ none := (SceneManager.reachable_inv s hs).2.1 h
    unfold SceneManager.GoToScene
    match hcurr : s.current with
    | none => exact absurd hcurr hcur
    | some c => rfl

/-- Witness for `sceneManager_update_paused_during_transition` at concrete
inputs (`S := ℕ`): with 25 ticks remaining the scene update does not run even
when a request is pending, and `GoToScene` mid-transition re-arms to 25. -/
theorem sceneManager_update_paused_witness :
    ((SceneManager.mk (some 1) (some 2) 25 : SceneManager ℕ).Update (some 9)).2 = false ∧
    ((SceneManager.mk (some 1) (some 2) 25 : SceneManager ℕ).Update (some 9)
        = ({ current := some 1, next := some 2, transitionCount := 24 }, false)) ∧
    ((((SceneManager.initial ℕ).GoToScene 1).GoToScene 2).GoToScene 3
        = { current := some 1, next := some 3, transitionCount := 25 }) :=
  ⟨(sceneManager_update_paused_during_transition (S := ℕ)).1
      (SceneManager.mk (some 1) (some 2) 25) (some 9) (by decide),
   (sceneManager_update_paused_during_transition (S := ℕ)).2.1
      (SceneManager.mk (some 1) (some 2) 25) (some 9) (by decide),
   (sceneManager_update_paused_during_transition (S := ℕ)).2.2.2
      (((SceneManager.initial ℕ).GoToScene 1).GoToScene 2) 3
      (SceneManager.Reachable.goto _ 2
        (SceneManager.Reachable.goto _ 1 SceneManager.Reachable.init))
      (by decide)⟩

/-! ## Geometry (vector.go, player.go constants)

`float64` coordinates are modelled as `Rat`.  `ScreenWidth = 1280` and
`ScreenHeight = 720` (player.go).  `Normalize` divides by
`math.Sqrt(x*x + y*y)`; since square roots leave ℚ, the magnitude is passed
explicitly and constrained by `mag * mag = x*x + y*y ∧ 0 ≤ mag` in theorems.
-/

def ScreenWidth : ℚ := 1280

def ScreenHeight : ℚ := 720

structure Vector where
  X : ℚ
  Y : ℚ
deriving Repr, DecidableEq

/-- `Vector.Normalize` from vector.go, with the value of
`math.Sqrt(v.X*v.X + v.Y*v.Y)` supplied as `mag`:
returns the zero vector when the magnitude is zero. -/
def Vector.NormalizeW (v : Vector) (mag : ℚ) : Vector :=
  if mag = 0 then { X := 0, Y := 0 } else { X := v.X / mag, Y := v.Y / mag }

/-! ## Entity stores and the spatial index (game-scene.go, resolv space)

Go keeps per-kind maps `map[int]*T` and one `*resolv.Space` holding the
collidable shapes.  Each shape object is identified here by its owner's kind
and store key; the space is the list of shapes currently added.  Sprites are
opaque handles; only the identities compared by the code are distinguished.
-/

inductive Obj
  | playerObj
  | shieldObj
  | meteorObj (k : Int)
  | laserObj (k : Int)
  | alienObj (k : Int)
  | alienLaserObj (k : Int)
deriving Repr, DecidableEq

inductive Sprite
  | meteorLarge
  | meteorSmall
  | alien
  | explosionSprite
  | explosionSmallSprite
  | player
deriving Repr, DecidableEq

/-! ## C1: store / spatial-index synchronisation

The sources named by the claim:

```go
// isAlienHitByPlayerLaser (game-scene.go): for an alien a and player laser l
// with a.alienObj.IsIntersecting(l.laserObj):
laserData := l.laserObj.Data().(*ObjectData)
delete(g.alienLasers, laserData.index) // Clean tracking for player laser.
g.space.Remove(l.laserObj)
a.sprite = g.explosionSmallSprite
g.score += 50
```

(The player laser's `ObjectData.index` is its key in `g.lasers`: `fireLasers`
does `p.game.laserCount++; laser := NewLaser(pos, rot, p.game.laserCount, g);
p.game.lasers[p.game.laserCount] = laser`.)

```go
// letAliensAttack (game-scene.go), per alive alien on the attack cadence:
laser := NewAlienLaser(spawnPosition, r)
g.alienLaserCount++
g.alienLasers[g.alienLaserCount] = laser
// (no g.space.Add(laser.laserObj) anywhere)
```
-/

structure ColState where
  lasers : List Int
  alienLasers : List Int
  aliens : List Int
  alienLaserCount : Int
  score : Int
  space : List Obj
deriving Repr, DecidableEq

/-- The body of `isAlienHitByPlayerLaser` for one intersecting pair, where
`l` is the player laser's store key (= its `ObjectData.index`): the key `l`
is deleted from `g.alienLasers` (as written — not from `g.lasers`), the
laser's shape is removed from the space, and 50 points are scored. -/
def hitAlienByPlayerLaser (st : ColState) (l : Int) : ColState :=
  { st with
      alienLasers := st.alienLasers.erase l,
      space := st.space.erase (Obj.laserObj l),
      score := st.score + 50 }

/-- The alien-laser spawn from `letAliensAttack`: the counter is bumped and
the new laser is stored under the new counter value; no shape is added to
the space. -/
def spawnAlienLaser (st : ColState) : ColState :=
  { st with
      alienLaserCount := st.alienLaserCount + 1,
      alienLasers := (st.alienLaserCount + 1) :: st.alienLasers }

/-- The store/index synchronisation invariant of the spec: every collidable
entity in a store has exactly one shape in the space and vice versa. -/
def ColState.syncedB (st : ColState) : Bool :=
  st.lasers.all (fun k => Obj.laserObj k ∈ st.space) &&
  st.alienLasers.all (fun k => Obj.alienLaserObj k ∈ st.space) &&
  st.aliens.all (fun k => Obj.alienObj k ∈ st.space) &&
  st.space.all (fun o =>
    match o with
    | Obj.laserObj k => k ∈ st.lasers
    | Obj.alienLaserObj k => k ∈ st.alienLasers
    | Obj.alienObj k => k ∈ st.aliens
    | _ => true)

/-- C1 (code bug, evaluated at the failing input): from a synchronised state
holding player laser 1, alien laser 1 and alien 1, the alien-hit handler
leaves player laser 1 in its store while removing its shape, and deletes
alien laser 1 from its store while leaving its shape — the invariant is
broken in both directions within the tick.  Independently, the alien-laser
spawn of `letAliensAttack` stores a laser whose shape is never added to the
space. -/
theorem storeIndex_desync_on_alien_hit_and_alien_laser_spawn :
    (ColState.syncedB
      { lasers := [1], alienLasers := [1], aliens := [1], alienLaserCount := 1,
        score := 0,
        space := [Obj.alienObj 1, Obj.laserObj 1, Obj.alienLaserObj 1] } = true) ∧
    (ColState.syncedB (hitAlienByPlayerLaser
      { lasers := [1], alienLasers := [1], aliens := [1], alienLaserCount := 1,
        score := 0,
        space := [Obj.alienObj 1, Obj.laserObj 1, Obj.alienLaserObj 1] } 1) = false) ∧
    ((1 : Int) ∈ (hitAlienByPlayerLaser
      { lasers := [1], alienLasers := [1], aliens := [1], alienLaserCount := 1,
        score := 0,
        space := [Obj.alienObj 1, Obj.laserObj 1, Obj.alienLaserObj 1] } 1).lasers ∧
      Obj.laserObj 1 ∉ (hitAlienByPlayerLaser
      { lasers := [1], alienLasers := [1], aliens := [1], alienLaserCount := 1,
        score := 0,
        space := [Obj.alienObj 1, Obj.laserObj 1, Obj.alienLaserObj 1] } 1).space) ∧
    ((1 : Int) ∉ (hitAlienByPlayerLaser
      { lasers := [1], alienLasers := [1], aliens := [1], alienLaserCount := 1,
        score := 0,
        space := [Obj.alienObj 1, Obj.laserObj 1, Obj.alienLaserObj 1] } 1).alienLasers ∧
      Obj.alienLaserObj 1 ∈ (hitAlienByPlayerLaser
      { lasers := [1], alienLasers := [1], aliens := [1], alienLaserCount := 1,
        score := 0,
        space := [Obj.alienObj 1, Obj.laserObj 1, Obj.alienLaserObj 1] } 1).space) ∧
    (ColState.syncedB (spawnAlienLaser
      { lasers := [], alienLasers := [], aliens := [1], alienLaserCount := 0,
        score := 0, space := [Obj.alienObj 1] }) = false) ∧
    (Obj.alienLaserObj 1 ∉ (spawnAlienLaser
      { lasers := [], alienLasers := [], aliens := [1], alienLaserCount := 0,
        score := 0, space := [Obj.alienObj 1] }).space ∧
      (1 : Int) ∈ (spawnAlienLaser
      { lasers := [], alienLasers := [], aliens := [1], alienLaserCount := 0,
        score := 0, space := [Obj.alienObj 1] }).alienLasers) := by
  refine ⟨by decide, by decide, ⟨by decide, by decide⟩, ⟨by decide, by decide⟩,
    by decide, ⟨by decide, by decide⟩⟩

/-! ## C4: meteor hit by player laser (game-scene.go isMeteorHitByPlayerLaser)

```go
for _, meteor := range g.meteors {
    for _, laser := range g.lasers {
        if meteor.meteorObj.IsIntersecting(laser.laserObj) {
            if meteor.meteorObj.Tags().Has(TagSmall) {
                meteor.sprite = g.explosionSmallSprite
                g.score++
                ...sound...
            } else {
                oldPosition := meteor.position
                meteor.sprite = g.explosionSprite
                g.score++
                ...sound...
                numberToSpawn := rand.Intn(numOfSmallMeteorsFromLargeMeteor) // = 4
                for i := 0; i < numberToSpawn; i++ {
                    child := NewSmallMeteor(baseMeteorVelocity, g, len(meteor.game.meteors)-1)
                    child.position = Vector{X: oldPosition.X + float64(rand.Intn(100-50)+50),
                                            Y: oldPosition.Y + float64(rand.Intn(100-50)+50)}
                    child.meteorObj.SetPosition(child.position.X, child.position.Y)
                    g.space.Add(child.meteorObj)
                    g.meteorCount++
                    g.meteors[meteor.game.meteorCount] = child
                }
            }
        }
    }
}
```

The body for one `(meteor, laser)` pair is embedded below; `hit` is the
result of `IsIntersecting`.  `rand.Intn(n)` values are drawn from the stream
`rng` as `rng i % n` (Go guarantees a value in `[0, n)`).  `NewSmallMeteor`'s
randomized movement (trig/sqrt based, and not inspected by any claim) is
abstracted as the stream `newSmallMovement`; its sprite and `TagSmall` tag
are as constructed in meteor.go, and its position is overwritten by the loop
exactly as in the source.  Nothing in this handler touches `g.lasers`. -/

structure MeteorE where
  position : Vector
  movement : Vector
  sprite : Sprite
  small : Bool
deriving Repr, DecidableEq

structure GameState where
  score : Int
  meteorCount : Int
  meteors : List (Int × MeteorE)
  lasers : List Int
  space : List Obj
deriving Repr, DecidableEq

def numOfSmallMeteorsFromLargeMeteor : ℕ := 4

def lookupMeteor (k : Int) : List (Int × MeteorE) → Option MeteorE
  | [] => none
  | (k', m) :: rest => if k' = k then some m else lookupMeteor k rest

def updateMeteor (k : Int) (m : MeteorE) (l : List (Int × MeteorE)) :
    List (Int × MeteorE) :=
  l.map (fun p => if p.1 = k then (k, m) else p)

def spawnSmallChildren (rng : ℕ → ℕ) (newSmallMovement : ℕ → Vector)
    (oldPosition : Vector) : ℕ → ℕ → GameState → GameState
  | 0, _, g => g
  | n + 1, i, g =>
      let child : MeteorE :=
        { position := { X := oldPosition.X + ((rng i % 50 + 50 : ℕ) : ℚ),
                        Y := oldPosition.Y + ((rng (i + 1) % 50 + 50 : ℕ) : ℚ) },
          movement := newSmallMovement i,
          sprite := Sprite.meteorSmall,
          small := true }
      let g' : GameState :=
        { g with
            space := g.space ++ [Obj.meteorObj (g.meteorCount + 1)],
            meteorCount := g.meteorCount + 1,
            meteors := g.meteors ++ [(g.meteorCount + 1, child)] }
      spawnSmallChildren rng newSmallMovement oldPosition n (i + 2) g'

def meteorHitByPlayerLaser (g : GameState) (mk : Int) (hit : Bool)
    (rng : ℕ → ℕ) (newSmallMovement : ℕ → Vector) : GameState :=
  if hit then
    match lookupMeteor mk g.meteors with
    | none => g
    | some m =>
      if m.small then
        { g with
            meteors := updateMeteor mk { m with sprite := Sprite.explosionSmallSprite }
              g.meteors,
            score := g.score + 1 }
      else
        let oldPosition := m.position
        let g1 : GameState :=
          { g with
              meteors := updateMeteor mk { m with sprite := Sprite.explosionSprite }
                g.meteors,
              score := g.score + 1 }
        spawnSmallChildren rng newSmallMovement oldPosition
          (rng 0 % numOfSmallMeteorsFromLargeMeteor) 1 g1
  else g

/-- Child spawn box of the claim: `[parent+50, parent+100)` on each axis. -/
def childBox (oldPosition : Vector) (p : Vector) : Prop :=
  oldPosition.X + 50 ≤ p.X ∧ p.X < oldPosition.X + 100 ∧
  oldPosition.Y + 50 ≤ p.Y ∧ p.Y < oldPosition.Y + 100

lemma spawnSmallChildren_spec (rng : ℕ → ℕ) (nm : ℕ → Vector) (oldPosition : Vector) :
    ∀ (n i : ℕ) (g : GameState), ∃ mtail stail,
      spawnSmallChildren rng nm oldPosition n i g =
        { score := g.score, meteorCount := g.meteorCount + (n : Int),
          meteors := g.meteors ++ mtail, lasers := g.lasers,
          space := g.space ++ stail } ∧
      mtail.length = n ∧
      ∀ p ∈ mtail, childBox oldPosition (p.2).position ∧ (p.2).small = true ∧
        (p.2).sprite = Sprite.meteorSmall := by
  intro n
  induction n with
  | zero =>
      intro i g
      refine ⟨[], [], ?_, rfl, by simp⟩
      simp [spawnSmallChildren]
  | succ k ih =>
      intro i g
      unfold spawnSmallChildren
      obtain ⟨mtail, stail, heq, hlen, hbox⟩ := ih (i + 2)
        { g with
            space := g.space ++ [Obj.meteorObj (g.meteorCount + 1)],
            meteorCount := g.meteorCount + 1,
            meteors := g.meteors ++ [(g.meteorCount + 1,
              { position := { X := oldPosition.X + ((rng i % 50 + 50 : ℕ) : ℚ),
                              Y := oldPosition.Y + ((rng (i + 1) % 50 + 50 : ℕ) : ℚ) },
                movement := nm i,
                sprite := Sprite.meteorSmall,
                small := true })] }
      refine ⟨(g.meteorCount + 1,
          { position := { X := oldPosition.X + ((rng i % 50 + 50 : ℕ) : ℚ),
                          Y := oldPosition.Y + ((rng (i + 1) % 50 + 50 : ℕ) : ℚ) },
            movement := nm i,
            sprite := Sprite.meteorSmall,
            small := true }) :: mtail,
        Obj.meteorObj (g.meteorCount + 1) :: stail, ?_, by simp [hlen], ?_⟩
      · rw [heq]
        simp only [List.append_assoc, List.singleton_append]
        congr 1
        push_cast
        ring
      · intro p hp
        rcases List.mem_cons.mp hp with hp | hp
        · subst hp
          have hx1 : (50 : ℕ) ≤ rng i % 50 + 50 := by omega
          have hx2 : rng i % 50 + 50 < 100 := by
            have := Nat.mod_lt (rng i) (show 0 < 50 by norm_num)
            omega
          have hy1 : (50 : ℕ) ≤ rng (i + 1) % 50 + 50 := by omega
          have hy2 : rng (i + 1) % 50 + 50 < 100 := by
            have := Nat.mod_lt (rng (i + 1)) (show 0 < 50 by norm_num)
            omega
          refine ⟨⟨?_, ?_, ?_, ?_⟩, rfl, rfl⟩
          all_goals dsimp only [childBox]
          · have : (50 : ℚ) ≤ ((rng i % 50 + 50 : ℕ) : ℚ) := by exact_mod_cast hx1
            linarith
          · have : ((rng i % 50 + 50 : ℕ) : ℚ) < 100 := by exact_mod_cast hx2
            linarith
          · have : (50 : ℚ) ≤ ((rng (i + 1) % 50 + 50 : ℕ) : ℚ) := by exact_mod_cast hy1
            linarith
          · have : ((rng (i + 1) % 50 + 50 : ℕ) : ℚ) < 100 := by exact_mod_cast hy2
            linarith
        · exact hbox p hp

lemma meteorHit_false (g : GameState) (mk : Int) (rng : ℕ → ℕ) (nm : ℕ → Vector) :
    meteorHitByPlayerLaser g mk false rng nm = g := rfl

lemma meteorHit_small (g : GameState) (mk : Int) (m : MeteorE) (rng : ℕ → ℕ)
    (nm : ℕ → Vector) (hm : lookupMeteor mk g.meteors = some m) (hs : m.small = true) :
    meteorHitByPlayerLaser g mk true rng nm =
      { g with
          meteors := updateMeteor mk { m with sprite := Sprite.explosionSmallSprite }
            g.meteors,
          score := g.score + 1 } := by
  unfold meteorHitByPlayerLaser
  rw [if_pos rfl, hm]
  dsimp only
  rw [hs]
  rfl

lemma meteorHit_large (g : GameState) (mk : Int) (m : MeteorE) (rng : ℕ → ℕ)
    (nm : ℕ → Vector) (hm : lookupMeteor mk g.meteors = some m) (hs : m.small = false) :
    ∃ mtail stail,
      meteorHitByPlayerLaser g mk true rng nm =
        { score := g.score + 1,
          meteorCount := g.meteorCount + ((rng 0 % numOfSmallMeteorsFromLargeMeteor : ℕ) : Int),
          meteors := updateMeteor mk { m with sprite := Sprite.explosionSprite } g.meteors
            ++ mtail,
          lasers := g.lasers,
          space := g.space ++ stail } ∧
      mtail.length = rng 0 % numOfSmallMeteorsFromLargeMeteor ∧
      ∀ p ∈ mtail, childBox m.position (p.2).position ∧ (p.2).small = true := by
  obtain ⟨mtail, stail, heq, hlen, hbox⟩ :=
    spawnSmallChildren_spec rng nm m.position (rng 0 % numOfSmallMeteorsFromLargeMeteor) 1
      { g with
          meteors := updateMeteor mk { m with sprite := Sprite.explosionSprite } g.meteors,
          score := g.score + 1 }
  rw [hs] at heq
  refine ⟨mtail, stail, ?_, hlen, fun p hp => ⟨(hbox p hp).1, (hbox p hp).2.1⟩⟩
  unfold meteorHitByPlayerLaser
  rw [if_pos rfl, hm]
  dsimp only
  rw [hs, if_neg Bool.false_ne_true]
  exact heq

lemma meteorHit_lasers_unchanged (g : GameState) (mk : Int) (hit : Bool) (rng : ℕ → ℕ)
    (nm : ℕ → Vector) :
    (meteorHitByPlayerLaser g mk hit rng nm).lasers = g.lasers := by
  cases hit
  · rw [meteorHit_false]
  · match hm : lookupMeteor mk g.meteors with
    | none =>
        unfold meteorHitByPlayerLaser
        rw [if_pos rfl, hm]
    | some m =>
        match hs : m.small with
        | true => rw [meteorHit_small g mk m rng nm hm hs]
        | false =>
            obtain ⟨mtail, stail, heq, _, _⟩ := meteorHit_large g mk m rng nm hm hs
            rw [heq]

lemma meteorHit_space_monotone (g : GameState) (mk : Int) (hit : Bool) (rng : ℕ → ℕ)
    (nm : ℕ → Vector) (o : Obj) (ho : o ∈ g.space) :
    o ∈ (meteorHitByPlayerLaser g mk hit rng nm).space := by
  cases hit
  · rw [meteorHit_false]; exact ho
  · match hm : lookupMeteor mk g.meteors with
    | none =>
        unfold meteorHitByPlayerLaser
        rw [if_pos rfl, hm]
        exact ho
    | some m =>
        match hs : m.small with
        | true => rw [meteorHit_small g mk m rng nm hm hs]; exact ho
        | false =>
            obtain ⟨mtail, stail, heq, _, _⟩ := meteorHit_large g mk m rng nm hm hs
            rw [heq]
            exact List.mem_append_left _ ho

/-- C4 counterexample: the claim says the intersecting player laser is
removed.  With a large meteor (key 1) hit by player laser (key 1) and the
random child count drawing 0, the laser is still in `g.lasers` and its shape
is still in the space after the handler runs — the handler never touches the
laser. -/
theorem meteorHit_keeps_the_laser :
    (meteorHitByPlayerLaser
        { score := 0, meteorCount := 1,
          meteors := [(1, { position := { X := 100, Y := 200 },
                            movement := { X := 1, Y := 0 },
                            sprite := Sprite.meteorLarge, small := false })],
          lasers := [1],
          space := [Obj.playerObj, Obj.meteorObj 1, Obj.laserObj 1] }
        1 true (fun _ => 0) (fun _ => { X := 0, Y := 0 })).lasers = [1] ∧
    Obj.laserObj 1 ∈ (meteorHitByPlayerLaser
        { score := 0, meteorCount := 1,
          meteors := [(1, { position := { X := 100, Y := 200 },
                            movement := { X := 1, Y := 0 },
                            sprite := Sprite.meteorLarge, small := false })],
          lasers := [1],
          space := [Obj.playerObj, Obj.meteorObj 1, Obj.laserObj 1] }
        1 true (fun _ => 0) (fun _ => { X := 0, Y := 0 })).space := by
  refine ⟨by decide, by decide⟩

/-- C4 (amended): whenever a player laser intersects a meteor during
collision resolution, the laser is *not* removed (the handler never touches
the laser store or removes shapes); if the meteor is small it explodes
(sprite swapped to the small-explosion asset) and the score increases by
exactly 1; if the meteor is large it explodes, the score increases by
exactly 1, and a child count drawn from `{0,1,2,3}` (each value attainable)
of small meteors is spawned, each child positioned within
`[parent.x+50, parent.x+100) × [parent.y+50, parent.y+100)` of the parent's
former position. -/
theorem meteorLaserHit_contract :
    (∀ (g : GameState) (mk : Int) (hit : Bool) (rng : ℕ → ℕ) (nm : ℕ → Vector),
        (meteorHitByPlayerLaser g mk hit rng nm).lasers = g.lasers) ∧
    (∀ (g : GameState) (mk : Int) (hit : Bool) (rng : ℕ → ℕ) (nm : ℕ → Vector) (o : Obj),
        o ∈ g.space → o ∈ (meteorHitByPlayerLaser g mk hit rng nm).space) ∧
    (∀ (g : GameState) (mk : Int) (m : MeteorE) (rng : ℕ → ℕ) (nm : ℕ → Vector),
        lookupMeteor mk g.meteors = some m → m.small = true →
        meteorHitByPlayerLaser g mk true rng nm =
          { g with
              meteors := updateMeteor mk { m with sprite := Sprite.explosionSmallSprite }
                g.meteors,
              score := g.score + 1 }) ∧
    (∀ (g : GameState) (mk : Int) (m : MeteorE) (rng : ℕ → ℕ) (nm : ℕ → Vector),
        lookupMeteor mk g.meteors = some m → m.small = false →
        rng 0 % numOfSmallMeteorsFromLargeMeteor < 4 ∧
        ∃ mtail stail,
          meteorHitByPlayerLaser g mk true rng nm =
            { score := g.score + 1,
              meteorCount := g.meteorCount
                + ((rng 0 % numOfSmallMeteorsFromLargeMeteor : ℕ) : Int),
              meteors := updateMeteor mk { m with sprite := Sprite.explosionSprite }
                g.meteors ++ mtail,
              lasers := g.lasers,
              space := g.space ++ stail } ∧
          mtail.length = rng 0 % numOfSmallMeteorsFromLargeMeteor ∧
          ∀ p ∈ mtail, childBox m.position (p.2).position ∧ (p.2).small = true) ∧
    (∀ j : ℕ, j < 4 →
        (fun _ : ℕ => j) 0 % numOfSmallMeteorsFromLargeMeteor = j) := by
  refine ⟨meteorHit_lasers_unchanged, meteorHit_space_monotone, meteorHit_small, ?_, ?_⟩
  · intro g mk m rng nm hm hs
    refine ⟨Nat.mod_lt _ (by norm_num [numOfSmallMeteorsFromLargeMeteor]),
      meteorHit_large g mk m rng nm hm hs⟩
  · intro j hj
    exact Nat.mod_eq_of_lt hj

/-- Witness for `meteorLaserHit_contract`: a small meteor (key 2) hit by a
laser explodes and scores one point at a concrete state. -/
theorem meteorLaserHit_contract_witness :
    meteorHitByPlayerLaser
        { score := 7, meteorCount := 2,
          meteors := [(2, { position := { X := 10, Y := 20 },
                            movement := { X := 0, Y := 1 },
                            sprite := Sprite.meteorSmall, small := true })],
          lasers := [3],
          space := [Obj.meteorObj 2, Obj.laserObj 3] }
        2 true (fun _ => 1) (fun _ => { X := 0, Y := 0 }) =
      { score := 8, meteorCount := 2,
        meteors := [(2, { position := { X := 10, Y := 20 },
                          movement := { X := 0, Y := 1 },
                          sprite := Sprite.explosionSmallSprite, small := true })],
        lasers := [3],
        space := [Obj.meteorObj 2, Obj.laserObj 3] } := by
  have h := meteorLaserHit_contract.2.2.1
      { score := 7, meteorCount := 2,
        meteors := [(2, { position := { X := 10, Y := 20 },
                          movement := { X := 0, Y := 1 },
                          sprite := Sprite.meteorSmall, small := true })],
        lasers := [3],
        space := [Obj.meteorObj 2, Obj.laserObj 3] }
      2 { position := { X := 10, Y := 20 }, movement := { X := 0, Y := 1 },
          sprite := Sprite.meteorSmall, small := true }
      (fun _ => 1) (fun _ => { X := 0, Y := 0 }) (by decide) rfl
  rw [h]
  decide

/-! ## C6: shielded player deflects meteors (game-scene.go)

```go
func (g *GameScene) isPlayerCollidingWithMeteor() {
    for _, m := range g.meteors {
        if m.meteorObj.IsIntersecting(g.player.playerObj) {
            if !g.player.isShielded {
                m.game.player.isDying = true
                ...explosion sound...
                break
            }
            g.bounceMeteor(m)
        }
    }
}

func (g *GameScene) bounceMeteor(m *Meteor) {
    direction := Vector{
        X: (ScreenWidth/2 - m.position.X) * -1,
        Y: (ScreenHeight/2 - m.position.Y) * -1,
    }
    normalizedDirection := direction.Normalize()
    velocity := g.baseVelocity * 1.5
    m.movement = Vector{X: normalizedDirection.X * velocity, Y: normalizedDirection.Y * velocity}
}
```

`mag` stands for the `math.Sqrt` value inside `Normalize` (see
`Vector.NormalizeW`).  The loop body for one meteor is embedded with the
intersection result as a parameter.
-/

def bounceMeteor (baseVelocity : ℚ) (m : MeteorE) (mag : ℚ) : MeteorE :=
  let direction : Vector :=
    { X := (ScreenWidth / 2 - m.position.X) * (-1),
      Y := (ScreenHeight / 2 - m.position.Y) * (-1) }
  let normalizedDirection := direction.NormalizeW mag
  let velocity := baseVelocity * (3 / 2)
  { m with movement := { X := normalizedDirection.X * velocity,
                         Y := normalizedDirection.Y * velocity } }

structure PlayerLife where
  isShielded : Bool
  isDying : Bool
  livesRemaning : Int
deriving Repr, DecidableEq

def playerMeteorCollisionOne (p : PlayerLife) (baseVelocity : ℚ) (m : MeteorE)
    (intersects : Bool) (mag : ℚ) : PlayerLife × MeteorE :=
  if intersects then
    if !p.isShielded then ({ p with isDying := true }, m)
    else (p, bounceMeteor baseVelocity m mag)
  else (p, m)

/-- C6: while the player is shielded, a meteor intersecting the player
leaves the player untouched (not marked dying, lives unchanged) and sets the
meteor's movement to the unit vector pointing from screen-center through the
meteor's position, scaled by 1.5 times the current base meteor speed.
`mag` is the `math.Sqrt` magnitude of the direction vector, characterised by
`hmag`/`hnn`; `hnz` states the meteor is not exactly at screen-center. -/
theorem shielded_meteor_bounce (p : PlayerLife) (baseVelocity : ℚ) (m : MeteorE)
    (mag : ℚ) (hsh : p.isShielded = true)
    (hmag : mag * mag = (m.position.X - ScreenWidth / 2) * (m.position.X - ScreenWidth / 2)
      + (m.position.Y - ScreenHeight / 2) * (m.position.Y - ScreenHeight / 2))
    (hnz : mag ≠ 0) :
    playerMeteorCollisionOne p baseVelocity m true mag =
      (p, { m with movement :=
        { X := (m.position.X - ScreenWidth / 2) / mag * (baseVelocity * (3 / 2)),
          Y := (m.position.Y - ScreenHeight / 2) / mag * (baseVelocity * (3 / 2)) } }) ∧
    ((m.position.X - ScreenWidth / 2) / mag) * ((m.position.X - ScreenWidth / 2) / mag)
      + ((m.position.Y - ScreenHeight / 2) / mag) * ((m.position.Y - ScreenHeight / 2) / mag)
      = 1 := by
  constructor
  · unfold playerMeteorCollisionOne
    rw [if_pos rfl, hsh]
    show (p, bounceMeteor baseVelocity m mag) = _
    unfold bounceMeteor Vector.NormalizeW
    dsimp only
    rw [if_neg hnz]
    have hx : (ScreenWidth / 2 - m.position.X) * (-1) = m.position.X - ScreenWidth / 2 := by
      ring
    have hy : (ScreenHeight / 2 - m.position.Y) * (-1) = m.position.Y - ScreenHeight / 2 := by
      ring
    simp only [hx, hy]
  · field_simp
    linarith [hmag]

/-- Witness for `shielded_meteor_bounce`: meteor at `(643, 364)` (offset
`(3,4)` from screen-center `(640, 360)`, magnitude 5), base speed `1/4`. -/
theorem shielded_meteor_bounce_witness :
    playerMeteorCollisionOne
        { isShielded := true, isDying := false, livesRemaning := 3 } (1 / 4)
        { position := { X := 643, Y := 364 }, movement := { X := 1, Y := 1 },
          sprite := Sprite.meteorLarge, small := false } true 5 =
      ({ isShielded := true, isDying := false, livesRemaning := 3 },
       { position := { X := 643, Y := 364 },
         movement := { X := 3 / 5 * (1 / 4 * (3 / 2)), Y := 4 / 5 * (1 / 4 * (3 / 2)) },
         sprite := Sprite.meteorLarge, small := false }) := by
  have h := (shielded_meteor_bounce
      { isShielded := true, isDying := false, livesRemaning := 3 } (1 / 4)
      { position := { X := 643, Y := 364 }, movement := { X := 1, Y := 1 },
        sprite := Sprite.meteorLarge, small := false } 5 rfl
      (by norm_num [ScreenWidth, ScreenHeight]) (by norm_num)).1
  rw [h]
  norm_num [ScreenWidth, ScreenHeight]

/-! ## C7: burst-gated laser fire (player.go fireLasers)

```go
const maxShotsPerBurst = 3
var shotsFired = 0

func (p *Player) fireLasers() {
    if p.burstCoolDown.IsReady() {
        if p.shootCoolDown.IsReady() && ebiten.IsKeyPressed(ebiten.KeySpace) {
            p.shootCoolDown.Reset()
            shotsFired++
            if shotsFired <= maxShotsPerBurst {
                ...compute spawnPosition...
                p.game.laserCount++
                laser := NewLaser(spawnPosition, p.rotation, p.game.laserCount, p.game)
                p.game.lasers[p.game.laserCount] = laser
                p.game.space.Add(laser.laserObj)
                ...per-shot sound...
            } else {
                p.burstCoolDown.Reset()
                shotsFired = 0
            }
        }
    }
}
```

The laser's spawn pose (trig-based) is not inspected by the claim; the store
key and shape registration are modelled.
-/

def maxShotsPerBurst : Int := 3

structure FireState where
  burstCoolDown : Timer
  shootCoolDown : Timer
  shotsFired : Int
  laserCount : Int
  lasers : List Int
  space : List Obj
deriving Repr, DecidableEq

def fireLasers (st : FireState) (spacePressed : Bool) : FireState :=
  if st.burstCoolDown.IsReady then
    if st.shootCoolDown.IsReady && spacePressed then
      let afterShot : FireState :=
        { st with shootCoolDown := st.shootCoolDown.Reset,
                  shotsFired := st.shotsFired + 1 }
      if afterShot.shotsFired ≤ maxShotsPerBurst then
        { afterShot with
            laserCount := afterShot.laserCount + 1,
            lasers := (afterShot.laserCount + 1) :: afterShot.lasers,
            space := Obj.laserObj (afterShot.laserCount + 1) :: afterShot.space }
      else
        { afterShot with
            burstCoolDown := afterShot.burstCoolDown.Reset,
            shotsFired := 0 }
    else st
  else st

/-- C7 counterexample: the claim says that when the shared counter reaches 3
the burst-cooldown timer is reset and the counter returns to 0.  Firing the
third shot of a burst (counter 2 → 3, both timers ready, key held) spawns a
laser, leaves the counter at 3, and does not reset the burst timer (which
only happens on the *fourth* qualifying trigger). -/
theorem third_shot_does_not_reset_burst :
    (fireLasers
        { burstCoolDown := Timer.mk 30 30, shootCoolDown := Timer.mk 9 9,
          shotsFired := 2, laserCount := 2, lasers := [2, 1],
          space := [Obj.playerObj, Obj.laserObj 1, Obj.laserObj 2] }
        true).shotsFired = 3 ∧
    (fireLasers
        { burstCoolDown := Timer.mk 30 30, shootCoolDown := Timer.mk 9 9,
          shotsFired := 2, laserCount := 2, lasers := [2, 1],
          space := [Obj.playerObj, Obj.laserObj 1, Obj.laserObj 2] }
        true).burstCoolDown = Timer.mk 30 30 ∧
    (Timer.mk 30 30).Reset ≠ Timer.mk 30 30 ∧
    (fireLasers
        { burstCoolDown := Timer.mk 30 30, shootCoolDown := Timer.mk 9 9,
          shotsFired := 2, laserCount := 2, lasers := [2, 1],
          space := [Obj.playerObj, Obj.laserObj 1, Obj.laserObj 2] }
        true).lasers = [3, 2, 1] := by
  refine ⟨by decide, by decide, by decide, by decide⟩

/-- C7 (amended): a player laser is spawned only when the burst-cooldown
timer is ready, the per-shot cooldown timer is ready, and the fire key is
held; each such shot increments the shared counter (to at most 3); a further
qualifying trigger with the counter already at 3 spawns no laser, resets the
burst-cooldown timer and returns the counter to 0 — so at most 3 lasers are
fired per burst. -/
theorem fireLasers_contract :
    (∀ (st : FireState) (pressed : Bool),
        (fireLasers st pressed).laserCount ≠ st.laserCount →
        st.burstCoolDown.IsReady = true ∧ st.shootCoolDown.IsReady = true ∧
        pressed = true ∧ st.shotsFired + 1 ≤ maxShotsPerBurst) ∧
    (∀ st : FireState,
        st.burstCoolDown.IsReady = true → st.shootCoolDown.IsReady = true →
        st.shotsFired + 1 ≤ maxShotsPerBurst →
        fireLasers st true =
          { burstCoolDown := st.burstCoolDown,
            shootCoolDown := st.shootCoolDown.Reset,
            shotsFired := st.shotsFired + 1,
            laserCount := st.laserCount + 1,
            lasers := (st.laserCount + 1) :: st.lasers,
            space := Obj.laserObj (st.laserCount + 1) :: st.space }) ∧
    (∀ st : FireState,
        st.burstCoolDown.IsReady = true → st.shootCoolDown.IsReady = true →
        maxShotsPerBurst < st.shotsFired + 1 →
        fireLasers st true =
          { st with
              burstCoolDown := st.burstCoolDown.Reset,
              shootCoolDown := st.shootCoolDown.Reset,
              shotsFired := 0 }) ∧
    (∀ (st : FireState) (pressed : Bool),
        st.burstCoolDown.IsReady = false ∨ st.shootCoolDown.IsReady = false ∨
          pressed = false →
        fireLasers st pressed = st) ∧
    (∀ (st : FireState) (pressed : Bool),
        st.shotsFired ≤ maxShotsPerBurst →
        (fireLasers st pressed).shotsFired ≤ maxShotsPerBurst) := by
  have hspawn : ∀ st : FireState,
      st.burstCoolDown.IsReady = true → st.shootCoolDown.IsReady = true →
      st.shotsFired + 1 ≤ maxShotsPerBurst →
      fireLasers st true =
        { burstCoolDown := st.burstCoolDown,
          shootCoolDown := st.shootCoolDown.Reset,
          shotsFired := st.shotsFired + 1,
          laserCount := st.laserCount + 1,
          lasers := (st.laserCount + 1) :: st.lasers,
          space := Obj.laserObj (st.laserCount + 1) :: st.space } := by
    intro st hb hs hle
    unfold fireLasers
    rw [hb, hs, if_pos rfl]
    dsimp only
    rw [if_pos (show (true && true) = true from rfl), if_pos hle]
  have hover : ∀ st : FireState,
      st.burstCoolDown.IsReady = true → st.shootCoolDown.IsReady = true →
      maxShotsPerBurst < st.shotsFired + 1 →
      fireLasers st true =
        { st with
            burstCoolDown := st.burstCoolDown.Reset,
            shootCoolDown := st.shootCoolDown.Reset,
            shotsFired := 0 } := by
    intro st hb hs hlt
    unfold fireLasers
    rw [hb, hs, if_pos rfl]
    dsimp only
    rw [if_pos (show (true && true) = true from rfl), if_neg (by omega)]
  have hidle : ∀ (st : FireState) (pressed : Bool),
      st.burstCoolDown.IsReady = false ∨ st.shootCoolDown.IsReady = false ∨
        pressed = false →
      fireLasers st pressed = st := by
    intro st pressed h
    unfold fireLasers
    rcases h with h | h | h
    · rw [h, if_neg (by simp)]
    · rw [h]
      by_cases hb : st.burstCoolDown.IsReady = true
      · rw [hb, if_pos rfl]
        simp
      · simp only [Bool.not_eq_true] at hb
        rw [hb, if_neg (by simp)]
    · rw [h]
      by_cases hb : st.burstCoolDown.IsReady = true
      · rw [hb, if_pos rfl]
        simp
      · simp only [Bool.not_eq_true] at hb
        rw [hb, if_neg (by simp)]
  refine ⟨?_, hspawn, hover, hidle, ?_⟩
  · intro st pressed hne
    by_cases hb : st.burstCoolDown.IsReady = true
    · by_cases hs : st.shootCoolDown.IsReady = true
      · by_cases hp : pressed = true
        · subst hp
          by_cases hle : st.shotsFired + 1 ≤ maxShotsPerBurst
          · exact ⟨hb, hs, rfl, hle⟩
          · rw [hover st hb hs (by omega)] at hne
            exact absurd rfl hne
        · rw [hidle st pressed (Or.inr (Or.inr (by simpa using hp)))] at hne
          exact absurd rfl hne
      · rw [hidle st pressed (Or.inr (Or.inl (by simpa using hs)))] at hne
        exact absurd rfl hne
    · rw [hidle st pressed (Or.inl (by simpa using hb))] at hne
      exact absurd rfl hne
  · intro st pressed hle
    by_cases hb : st.burstCoolDown.IsReady = true
    · by_cases hs : st.shootCoolDown.IsReady = true
      · by_cases hp : pressed = true
        · subst hp
          by_cases hlee : st.shotsFired + 1 ≤ maxShotsPerBurst
          · rw [hspawn st hb hs hlee]
            show st.shotsFired + 1 ≤ maxShotsPerBurst
            exact hlee
          · rw [hover st hb hs (by omega)]
            show (0 : Int) ≤ maxShotsPerBurst
            unfold maxShotsPerBurst
            omega
        · rw [hidle st pressed (Or.inr (Or.inr (by simpa using hp)))]
          exact hle
      · rw [hidle st pressed (Or.inr (Or.inl (by simpa using hs)))]
        exact hle
    · rw [hidle st pressed (Or.inl (by simpa using hb))]
      exact hle

/-- Witness for `fireLasers_contract`: the first shot of a burst at a
concrete ready state spawns laser 1, and an unready burst timer blocks
firing. -/
theorem fireLasers_contract_witness :
    fireLasers
        { burstCoolDown := Timer.mk 30 30, shootCoolDown := Timer.mk 9 9,
          shotsFired := 0, laserCount := 0, lasers := [], space := [Obj.playerObj] }
        true =
      { burstCoolDown := Timer.mk 30 30, shootCoolDown := Timer.mk 0 9,
        shotsFired := 1, laserCount := 1, lasers := [1],
        space := [Obj.laserObj 1, Obj.playerObj] } ∧
    fireLasers
        { burstCoolDown := Timer.mk 0 30, shootCoolDown := Timer.mk 9 9,
          shotsFired := 0, laserCount := 0, lasers := [], space := [Obj.playerObj] }
        true =
      { burstCoolDown := Timer.mk 0 30, shootCoolDown := Timer.mk 9 9,
        shotsFired := 0, laserCount := 0, lasers := [], space := [Obj.playerObj] } :=
  ⟨fireLasers_contract.2.1
      { burstCoolDown := Timer.mk 30 30, shootCoolDown := Timer.mk 9 9,
        shotsFired := 0, laserCount := 0, lasers := [], space := [Obj.playerObj] }
      (by decide) (by decide) (by decide),
   fireLasers_contract.2.2.2.1
      { burstCoolDown := Timer.mk 0 30, shootCoolDown := Timer.mk 9 9,
        shotsFired := 0, laserCount := 0, lasers := [], space := [Obj.playerObj] }
      true (Or.inl (by decide))⟩

/-! ## C8: death at zero lives, high-score persistence (game-scene.go, helpers.go, title_scene.go)

```go
func (g *GameScene) isPlayerDead(state *State) {
    if g.player.isDead {
        g.player.livesRemaning--
        if g.player.livesRemaning == 0 {
            if g.score > originalHighScore {
                if err := updateHighScore(g.score); err != nil { log.Println(err) }
            }
            state.SceneManager.GoToScene(&GameOverScene{...})
        } else {
            score := g.score
            livesRemaining := g.player.livesRemaning
            ...
            g.Reset()
            g.player.livesRemaning = livesRemaining
            g.score = score
            ...
        }
    }
}
```

```go
// title_scene.go
func init() {
    hs, err := getHighScore()
    if err != nil { log.Println("Error getting high score", err) }
    highScore = hs
    originalHighScore = hs
}
```

`getHighScore` (helpers.go) returns `(0, err)` on every failure path and the
parsed value otherwise; its I/O outcome is the parameter.  `updateHighScore`
may fail; the only use of its error is `log.Println`, so the write outcome
parameter cannot influence the returned state. -/

inductive SceneRef
  | gameOver
  | levelStarts
deriving Repr, DecidableEq

structure DeathState where
  score : Int
  livesRemaning : Int
  isDead : Bool
deriving Repr, DecidableEq

def isPlayerDead (st : DeathState) (originalHighScore : Int)
    (_writeErr : Option String) : DeathState × Bool × Option SceneRef :=
  if st.isDead then
    let lives := st.livesRemaning - 1
    if lives = 0 then
      ({ st with livesRemaning := lives },
        decide (originalHighScore < st.score),
        some SceneRef.gameOver)
    else
      ({ score := st.score, livesRemaning := lives, isDead := false }, false, none)
  else (st, false, none)

def getHighScoreValue (readOutcome : Except String Int) : Int :=
  match readOutcome with
  | Except.ok v => v
  | Except.error _ => 0

/-- C8: when the player's remaining lives reach 0, a high-score write is
attempted iff the session score strictly exceeds the high score recorded at
process start, and the scene manager is directed to the GameOver scene; the
write outcome cannot change the gameplay state, and a failed read yields the
in-memory value 0. -/
theorem playerDeath_gameOver_contract :
    (∀ (st : DeathState) (ohs : Int) (e : Option String),
        st.isDead = true → st.livesRemaning = 1 →
        isPlayerDead st ohs e =
          ({ st with livesRemaning := 0 }, decide (ohs < st.score),
            some SceneRef.gameOver)) ∧
    (∀ (st : DeathState) (ohs : Int) (e1 e2 : Option String),
        isPlayerDead st ohs e1 = isPlayerDead st ohs e2) ∧
    (∀ msg : String, getHighScoreValue (Except.error msg) = 0) ∧
    (∀ v : Int, getHighScoreValue (Except.ok v) = v) ∧
    (∀ (st : DeathState) (ohs : Int) (e : Option String), st.isDead = false →
        isPlayerDead st ohs e = (st, false, none)) := by
  refine ⟨?_, fun st ohs e1 e2 => rfl, fun msg => rfl, fun v => rfl, ?_⟩
  · intro st ohs e hd hl
    unfold isPlayerDead
    rw [hd, if_pos rfl]
    dsimp only
    rw [hl]
    rw [if_pos (by norm_num)]
    have : (1 : Int) - 1 = 0 := by norm_num
    rw [this]
  · intro st ohs e hd
    unfold isPlayerDead
    rw [hd, if_neg Bool.false_ne_true]

/-- Witness for `playerDeath_gameOver_contract`: a dead player with one life
and score 120 against a boot high score of 100 drops to 0 lives, triggers
the write attempt, and goes to GameOver. -/
theorem playerDeath_gameOver_contract_witness :
    isPlayerDead { score := 120, livesRemaning := 1, isDead := true } 100 none =
      ({ score := 120, livesRemaning := 0, isDead := true }, true,
        some SceneRef.gameOver) := by
  have h := playerDeath_gameOver_contract.1
      { score := 120, livesRemaning := 1, isDead := true } 100 none rfl rfl
  rw [h]
  decide

/-! ## C9: screen wrapping (meteor.go, player.go, game-scene.go)

```go
// Meteor.keepOnScreen
if m.position.X >= float64(ScreenWidth) { m.position.X = 0; ... }
else if m.position.X < 0 { m.position.X = float64(ScreenWidth); ... }
if m.position.Y >= float64(ScreenHeight) { m.position.Y = 0; ... }
else if m.position.Y < 0 { m.position.Y = float64(ScreenHeight); ... }

// Player.keepOnScreen (independent ifs, sequential mutation)
if p.position.X >= float64(ScreenWidth) { p.position.X = 0; ... }
if p.position.X < 0 { p.position.X = ScreenWidth; ... }
if p.position.Y >= float64(ScreenHeight) { p.position.Y = 0; ... }
if p.position.Y < 0 { p.position.Y = ScreenHeight; ... }

// removeOffscreenAliens — aliens never wrap, they are pruned:
for i, alien := range g.aliens {
    if alien.position.X < -200 || alien.position.X > ScreenWidth+200 ||
        alien.position.Y < -200 || alien.position.Y > ScreenHeight+200 {
        delete(g.aliens, i)
        g.space.Remove(alien.alienObj)
    }
}

// Alien.Update — no wrap:
a.position.X += a.movement.X
a.position.Y += a.movement.Y
```
The collider `SetPosition` calls mirror the position fields and are elided.
-/

def MeteorE.keepOnScreen (m : MeteorE) : MeteorE :=
  let x := if m.position.X ≥ ScreenWidth then (0 : ℚ)
           else if m.position.X < 0 then ScreenWidth
           else m.position.X
  let y := if m.position.Y ≥ ScreenHeight then (0 : ℚ)
           else if m.position.Y < 0 then ScreenHeight
           else m.position.Y
  { m with position := { X := x, Y := y } }

def playerKeepOnScreen (position : Vector) : Vector :=
  let x1 := if position.X ≥ ScreenWidth then (0 : ℚ) else position.X
  let x2 := if x1 < 0 then ScreenWidth else x1
  let y1 := if position.Y ≥ ScreenHeight then (0 : ℚ) else position.Y
  let y2 := if y1 < 0 then ScreenHeight else y1
  { X := x2, Y := y2 }

structure AlienE where
  position : Vector
  movement : Vector
deriving Repr, DecidableEq

def AlienE.Update (a : AlienE) : AlienE :=
  { a with position := { X := a.position.X + a.movement.X,
                         Y := a.position.Y + a.movement.Y } }

def removeOffscreenAliens (aliens : List (Int × AlienE)) : List (Int × AlienE) :=
  aliens.filter (fun p =>
    !(decide (p.2.position.X < -200) || decide (p.2.position.X > ScreenWidth + 200) ||
      decide (p.2.position.Y < -200) || decide (p.2.position.Y > ScreenHeight + 200)))

/-- The per-axis wrap the claim describes: at or past the bound wrap to 0,
below 0 wrap to the bound. -/
def wrapCoord (bound x : ℚ) : ℚ :=
  if x ≥ bound then 0 else if x < 0 then bound else x

/-- C9 counterexample: an alien at `x = 1279` moving right by 2 ends the
tick at `x = 1281 ≥ ScreenWidth = 1280`, is kept by the off-screen pruning
(margin 200), and its coordinate is not wrapped to 0 — aliens never wrap, so
the claim's "for every entity" fails. -/
theorem alien_beyond_width_does_not_wrap :
    (removeOffscreenAliens
        [(1, AlienE.Update
            { position := { X := 1279, Y := 360 }, movement := { X := 2, Y := 0 } })]
      = [(1, { position := { X := 1281, Y := 360 },
               movement := { X := 2, Y := 0 } })]) ∧
    (AlienE.Update
        { position := { X := 1279, Y := 360 },
          movement := { X := 2, Y := 0 } }).position.X ≥ ScreenWidth ∧
    (AlienE.Update
        { position := { X := 1279, Y := 360 },
          movement := { X := 2, Y := 0 } }).position.X ≠ 0 := by
  refine ⟨?_, ?_, ?_⟩
  · unfold removeOffscreenAliens AlienE.Update
    norm_num [ScreenWidth, ScreenHeight]
  · unfold AlienE.Update ScreenWidth
    norm_num
  · unfold AlienE.Update
    norm_num

/-- C9 (amended): the wrap applies to the entities with a `keepOnScreen`
step — meteors and the player: whenever such an entity's coordinate on one
axis reaches or exceeds the arena bound it wraps to 0, and below 0 it wraps
to the opposite bound, the other axis and the movement vector being
unaffected.  Aliens never wrap: their positions are left untouched and they
are instead pruned once beyond a 200-pixel off-screen margin. -/
theorem keepOnScreen_wrap_contract :
    (∀ m : MeteorE, MeteorE.keepOnScreen m =
        { m with position := { X := wrapCoord ScreenWidth m.position.X,
                               Y := wrapCoord ScreenHeight m.position.Y } }) ∧
    (∀ m : MeteorE, (MeteorE.keepOnScreen m).movement = m.movement) ∧
    (∀ v : Vector, playerKeepOnScreen v =
        { X := wrapCoord ScreenWidth v.X, Y := wrapCoord ScreenHeight v.Y }) ∧
    (∀ (b x : ℚ), 0 < b →
        (x ≥ b → wrapCoord b x = 0) ∧ (x < 0 → wrapCoord b x = b) ∧
        (0 ≤ x → x < b → wrapCoord b x = x)) ∧
    (∀ (aliens : List (Int × AlienE)) (p : Int × AlienE),
        p ∈ removeOffscreenAliens aliens → p ∈ aliens) := by
  refine ⟨?_, ?_, ?_, ?_, ?_⟩
  · intro m
    unfold MeteorE.keepOnScreen wrapCoord
    rfl
  · intro m
    unfold MeteorE.keepOnScreen
    rfl
  · intro v
    unfold playerKeepOnScreen wrapCoord
    dsimp only
    congr 1
    · by_cases h1 : v.X ≥ ScreenWidth
      · rw [if_pos h1, if_pos h1, if_neg (by norm_num)]
      · rw [if_neg h1, if_neg h1]
    · by_cases h1 : v.Y ≥ ScreenHeight
      · rw [if_pos h1, if_pos h1, if_neg (by norm_num)]
      · rw [if_neg h1, if_neg h1]
  · intro b x hb
    refine ⟨?_, ?_, ?_⟩
    · intro h
      unfold wrapCoord
      rw [if_pos h]
    · intro h
      unfold wrapCoord
      rw [if_neg (by linarith), if_pos h]
    · intro h0 h1
      unfold wrapCoord
      rw [if_neg (by linarith), if_neg (by linarith)]
  · intro aliens p hp
    exact List.mem_of_mem_filter hp

/-- Witness for `keepOnScreen_wrap_contract`: a meteor at `(1280, -3)` wraps
to `(0, 720)` with its velocity intact, and the bound facts at `b = 1280`. -/
theorem keepOnScreen_wrap_contract_witness :
    (MeteorE.keepOnScreen
        { position := { X := 1280, Y := -3 }, movement := { X := 2, Y := 1 },
          sprite := Sprite.meteorLarge, small := false } =
      { position := { X := 0, Y := 720 }, movement := { X := 2, Y := 1 },
        sprite := Sprite.meteorLarge, small := false }) ∧
    wrapCoord 1280 1280 = 0 ∧ wrapCoord 1280 (-1) = 1280 ∧ wrapCoord 1280 5 = 5 := by
  have h1 := keepOnScreen_wrap_contract.1
      { position := { X := 1280, Y := -3 }, movement := { X := 2, Y := 1 },
        sprite := Sprite.meteorLarge, small := false }
  have h2 := keepOnScreen_wrap_contract.2.2.2.1 1280 1280 (by norm_num)
  have h3 := keepOnScreen_wrap_contract.2.2.2.1 1280 (-1) (by norm_num)
  have h4 := keepOnScreen_wrap_contract.2.2.2.1 1280 5 (by norm_num)
  refine ⟨?_, h2.1 (by norm_num), h3.2.1 (by norm_num), h4.2.2 (by norm_num) (by norm_num)⟩
  rw [h1]
  norm_num [wrapCoord, ScreenWidth, ScreenHeight]

/-! ## C5: hyperspace teleport (player.go hyperSpace, collider.go checkCollision)

```go
const hyperSpaceCooldown = 10 * time.Second

func (p *Player) hyperSpace() {
    if ebiten.IsKeyPressed(ebiten.KeyH) && (p.hyperSpaceTimer == nil || p.hyperSpaceTimer.IsReady()) {
        // Find a random (x,y). Note: current collision check is a stub hook.
        var randX, randY int
        for {
            randX = rand.Intn(ScreenWidth)
            randY = rand.Intn(ScreenHeight)
            collision := p.game.checkCollision(p.playerObj, nil) // Placeholder hook.
            if !collision { break }
        }
        p.position.X = float64(randX)
        p.position.Y = float64(randY)
        if p.hyperSpaceTimer == nil { p.hyperSpaceTimer = NewTimer(hyperSpaceCooldown) }
        p.hyperSpaceTimer.Reset()
    }
}
```

`checkCollision(p.playerObj, nil)` broad-queries the space around the
player's *current* collider, which does not move during the loop, so the
break condition is the same on every iteration: the loop exits on the first
iteration when that query is false and never exits when it is true.  The
query's value is the parameter `collisionAtPlayer`; the nonterminating case
is `none`.  `rand.Intn` draws come from `rng` as residues. -/

def hyperSpaceCooldownMs : Int := 10000

def hyperSpaceLoopResult (collisionAtPlayer : Bool) (rng : ℕ → ℕ) :
    Option (ℕ × ℕ) :=
  if collisionAtPlayer then none else some (rng 0 % 1280, rng 1 % 720)

structure PlayerH where
  position : Vector
  hyperSpaceTimer : Option Timer
deriving Repr, DecidableEq

def hyperSpace (p : PlayerH) (hPressed : Bool) (collisionAtPlayer : Bool)
    (rng : ℕ → ℕ) (tps : Int) : Option PlayerH :=
  if hPressed &&
      (match p.hyperSpaceTimer with
       | none => true
       | some t => t.IsReady) then
    match hyperSpaceLoopResult collisionAtPlayer rng with
    | none => none
    | some (randX, randY) =>
        some { position := { X := (randX : ℚ), Y := (randY : ℚ) },
               hyperSpaceTimer :=
                 some (Timer.Reset
                   (match p.hyperSpaceTimer with
                    | none => NewTimer hyperSpaceCooldownMs tps
                    | some t => t)) }
  else some p

/-- C5 (code bug, evaluated at the failing input): the claim says the
committed destination is a sampled point the broad-phase query reported
unoccupied.  The code's query tests the player's current collider, never the
sampled point: (i) whenever that query is false the very first sample is
committed unconditionally — for any random stream and any occupancy of the
destination — and the cooldown timer is created and reset; (ii) whenever
that query is true the loop never terminates, even if every sampled point is
free. -/
theorem hyperSpace_destination_unchecked :
    (∀ (pos : Vector) (rng : ℕ → ℕ) (tps : Int),
        hyperSpace { position := pos, hyperSpaceTimer := none } true false rng tps =
          some { position := { X := ((rng 0 % 1280 : ℕ) : ℚ),
                               Y := ((rng 1 % 720 : ℕ) : ℚ) },
                 hyperSpaceTimer := some (NewTimer hyperSpaceCooldownMs tps) }) ∧
    (hyperSpace { position := { X := 100, Y := 100 }, hyperSpaceTimer := none }
        true false (fun i => if i = 0 then 5 else 7) 60 =
      some { position := { X := 5, Y := 7 },
             hyperSpaceTimer := some (Timer.mk 0 600) }) ∧
    (hyperSpace { position := { X := 100, Y := 100 }, hyperSpaceTimer := none }
        true true (fun i => if i = 0 then 5 else 7) 60 = none) := by
  refine ⟨?_, by decide, by decide⟩
  intro pos rng tps
  rfl

end Asteroids
